import Mathlib

/-!
Verification of the manual-compaction HTTP action of the Doris backend
(`be/src/http/action/compaction_action.cpp`), as a shallow embedding.

The orchestration layer under verification decides, for each HTTP request:
parameter validation, target resolution (single tablet vs table-wide fan-out),
task submission and bounded waiting, the run-status probe priority, the
failure-counter discipline of the trigger callback, and the HTTP reply shape.

Code outside this file (the olap compaction classes, the tablet manager, the
metrics sink) is represented by oracles: explicit parameters carrying the
results those collaborators would return.
-/

namespace DorisCompaction

/-- Error codes of the C++ `Status` values that this action constructs or
inspects.  `otherError` stands for any code not specially treated here
(merge failures, I/O errors, ...). -/
inductive ErrCode where
  | ok
  | internalError
  | notFound
  | notSupported
  | beNoSuitableVersion
  | cumulativeNoSuitableVersion
  | fullNoSuitableVersion
  | otherError
  deriving DecidableEq, Repr

/-- Embedding of `doris::Status`: an error code plus a message. -/
structure CStatus where
  code : ErrCode
  msg : String
  deriving DecidableEq, Repr

/-- `Status::OK()`. -/
def CStatus.OK : CStatus := ⟨ErrCode.ok, ""⟩

/-- `status.ok()`. -/
def CStatus.isOk (s : CStatus) : Bool := s.code == ErrCode.ok

/-- `ULLONG_MAX`, the largest value `std::stoull` can return. -/
def ULLONG_MAX : Nat := 2 ^ 64 - 1

/-- Embedding of `std::stoull(s)` at base 10: skip leading whitespace, accept
an optional sign, convert the maximal run of digits.  `none` models a thrown
exception (`invalid_argument` when no digits are found, `out_of_range` when
the digit value exceeds `ULLONG_MAX`); a leading minus sign wraps the value
modulo 2^64 as the C++ conversion does. -/
def stoullOpt (s : String) : Option Nat :=
  let cs := s.data.dropWhile (fun c => c == ' ' || c == '\t' || c == '\n'
    || c == '\r' || c == '\x0b' || c == '\x0c')
  let signed : Bool × List Char :=
    match cs with
    | '-' :: rest => (true, rest)
    | '+' :: rest => (false, rest)
    | _ => (false, cs)
  let ds := signed.2.takeWhile Char.isDigit
  if ds.isEmpty then none
  else
    let v := ds.foldl (fun a c => a * 10 + (c.toNat - 48)) 0
    if v > ULLONG_MAX then none
    else some (if signed.1 then (2 ^ 64 - v % 2 ^ 64) % 2 ^ 64 else v)

/-- The request parameters the compaction action reads
(`TABLET_ID_KEY`, `TABLE_ID_KEY`, `PARAM_COMPACTION_TYPE`,
`PARAM_COMPACTION_REMOTE`); an absent parameter is the empty string. -/
structure HttpRequest where
  tablet_id_param : String
  table_id_param : String
  compaction_type_param : String
  remote_param : String
  deriving DecidableEq, Repr

/-- Embedding of the two-output `_check_param(req, &tablet_id, &table_id)`:
exactly one of the two id parameters must be non-empty; it is converted with
`std::stoull`.  Returns the status together with the written-back
`(tablet_id, table_id)`, both starting at 0 as at the call site. -/
def check_param_ids (req : HttpRequest) : CStatus × Nat × Nat :=
  if req.tablet_id_param.isEmpty then
    if req.table_id_param.isEmpty then
      (⟨ErrCode.internalError,
        "tablet id and table id can not be empty at the same time!"⟩, 0, 0)
    else
      match stoullOpt req.table_id_param with
      | some v => (CStatus.OK, 0, v)
      | none => (⟨ErrCode.internalError, "convert table_id failed"⟩, 0, 0)
  else if req.table_id_param.isEmpty then
    match stoullOpt req.tablet_id_param with
    | some v => (CStatus.OK, v, 0)
    | none => (⟨ErrCode.internalError, "convert tablet_id failed"⟩, 0, 0)
  else
    (⟨ErrCode.internalError,
      "tablet id and table id can not be set at the same time!"⟩, 0, 0)

/-- Embedding of the single-parameter `_check_param(req, &id_param, name)`:
an empty parameter leaves the output untouched (the callers initialise it
to 0); a non-empty one is converted with `std::stoull`. -/
def check_param_single (param : String) (cur : Nat) : CStatus × Nat :=
  if param.isEmpty then (CStatus.OK, cur)
  else
    match stoullOpt param with
    | some v => (CStatus.OK, v)
    | none => (⟨ErrCode.internalError, "convert param failed"⟩, cur)

/-- A cumulative compaction policy instance.
Modelled from the spec: `CumulativeCompactionPolicyFactory` lives in the olap
layer, outside the shown source; the spec says a policy is "derived from
persisted tablet configuration", so an instance is identified by the
configuration string it was created from. -/
structure CumulativeCompactionPolicy where
  from_meta : String
  deriving DecidableEq, Repr

/-- `CumulativeCompactionPolicyFactory::create_cumulative_compaction_policy`.
Modelled from the spec: creates a policy instance from the tablet's persisted
compaction-policy configuration. -/
def create_cumulative_compaction_policy (meta : String) :
    CumulativeCompactionPolicy := ⟨meta⟩

/-- The tablet state this action reads: identity, replication role, the
compaction lock/flag snapshot probed by the run-status query, the persisted
policy configuration, the lazily bound policy instance, and the JSON the
tablet renders for `get_compaction_status`. -/
structure Tablet where
  tablet_id : Nat
  table_id : Nat
  should_fetch_from_peer : Bool
  is_full_compaction_running : Bool
  cumulative_lock_held : Bool
  base_lock_held : Bool
  compaction_policy_meta : String
  cumulative_compaction_policy : Option CumulativeCompactionPolicy
  compaction_status_json : String
  deriving DecidableEq, Repr

/-- The storage-engine state this action reads: the tablet registry and the
JSON of `get_compaction_status_json`. -/
structure StorageEngine where
  tablets : List Tablet
  overall_status_json : String
  deriving DecidableEq, Repr

/-- `TabletManager::get_tablet(id)`: first registered tablet with that id,
`none` for not found (the C++ null shared pointer). -/
def get_tablet (e : StorageEngine) (id : Nat) : Option Tablet :=
  e.tablets.find? (fun t => t.tablet_id == id)

/-- `TabletManager::get_all_tablet(pred)` with the fan-out predicate
`tablet->get_table_id() == table_id`. -/
def get_all_tablet_of_table (e : StorageEngine) (table_id : Nat) : List Tablet :=
  e.tablets.filter (fun t => t.table_id == table_id)

/-- `CompactionType` of the submission interface. -/
inductive CompactionType where
  | BASE_COMPACTION
  | CUMULATIVE_COMPACTION
  | FULL_COMPACTION
  deriving DecidableEq, Repr

/-- The concrete compaction object the callback constructs: one of the four
olap task classes.  Their implementations are outside the shown source; each
is represented by the results its two phases would return. -/
inductive CompactionVariant where
  | baseCompaction
  | cumulativeCompaction
  | singleReplicaCompaction
  | fullCompaction
  deriving DecidableEq, Repr

/-- Oracle for a constructed compaction task: the `Status` each of its two
phases returns when invoked (the olap implementations are external). -/
structure Compaction where
  prepare_compact : CStatus
  execute_compact : CStatus
  deriving DecidableEq, Repr

/-- Embedding of the `do_compact` lambda of the callback:
`RETURN_IF_ERROR(compaction.prepare_compact()); return
compaction.execute_compact();`.  The second component records whether
`execute_compact` was invoked. -/
def do_compact (c : Compaction) : CStatus × Bool :=
  if c.prepare_compact.isOk then (c.execute_compact, true)
  else (c.prepare_compact, false)

/-- The two failure counters of `DorisMetrics` this callback increments. -/
structure Metrics where
  base_compaction_request_failed : Nat
  cumulative_compaction_request_failed : Nat
  deriving DecidableEq, Repr

/-- The request-parameter constants `PARAM_COMPACTION_BASE`,
`PARAM_COMPACTION_CUMULATIVE`, `PARAM_COMPACTION_FULL`. -/
def PARAM_COMPACTION_BASE : String := "base"

/-- `PARAM_COMPACTION_CUMULATIVE`. -/
def PARAM_COMPACTION_CUMULATIVE : String := "cumulative"

/-- `PARAM_COMPACTION_FULL`. -/
def PARAM_COMPACTION_FULL : String := "full"

/-- Embedding of `CompactionAction::_execute_compaction_callback`.
`compactions` is the oracle giving the phase results of each compaction
object the callback may construct.  Returns the callback's `Status`, the
updated metrics, and the tablet after the policy-binding step. -/
def execute_compaction_callback (compactions : CompactionVariant → Compaction)
    (tablet : Tablet) (compaction_type : String) (fetch_from_remote : Bool)
    (m : Metrics) : CStatus × Metrics × Tablet :=
  let policy := create_cumulative_compaction_policy tablet.compaction_policy_meta
  let tablet' :=
    if tablet.cumulative_compaction_policy == none then
      { tablet with cumulative_compaction_policy := some policy }
    else tablet
  if compaction_type == PARAM_COMPACTION_BASE then
    let res := (do_compact (compactions CompactionVariant.baseCompaction)).1
    let m' :=
      if ¬ res.isOk ∧ res.code ≠ ErrCode.beNoSuitableVersion then
        { m with base_compaction_request_failed :=
            m.base_compaction_request_failed + 1 }
      else m
    (res, m', tablet')
  else if compaction_type == PARAM_COMPACTION_CUMULATIVE then
    if fetch_from_remote then
      let res := (do_compact (compactions CompactionVariant.singleReplicaCompaction)).1
      (res, m, tablet')
    else
      let res := (do_compact (compactions CompactionVariant.cumulativeCompaction)).1
      let m' :=
        if ¬ res.isOk ∧ res.code ≠ ErrCode.cumulativeNoSuitableVersion then
          { m with cumulative_compaction_request_failed :=
              m.cumulative_compaction_request_failed + 1 }
        else m
      (res, m', tablet')
  else if compaction_type == PARAM_COMPACTION_FULL then
    let res := (do_compact (compactions CompactionVariant.fullCompaction)).1
    (res, m, tablet')
  else
    (CStatus.OK, m, tablet')

/-- Observable side effects of one `_handle_run_compaction` call:
whether the tablet registry was consulted (`get_tablet` / `get_all_tablet`),
which `submit_compaction_task` calls were issued (tablet id and type), and
whether a background thread running the trigger callback was spawned.
Locks are only touched inside submitted tasks or the spawned callback, so
`submissions = [] ∧ task_spawned = false` entails that no lock was touched. -/
structure RunEffects where
  lookup_attempted : Bool
  submissions : List (Nat × CompactionType)
  task_spawned : Bool
  deriving DecidableEq, Repr

/-- No side effects. -/
def RunEffects.noEffects : RunEffects := ⟨false, [], false⟩

/-- The external behaviour an `_handle_run_compaction` call depends on:
the engine state, the `Status` each `submit_compaction_task` call would
return, the debug-injection flag
(`CompactionAction._handle_run_compaction.submit_cumu_task`), the phase
results of each compaction object the callback may construct, and whether
the 2-second `future.wait_for` finds the callback finished. -/
structure RunEnv where
  engine : StorageEngine
  submit_result : Nat → CompactionType → CStatus
  debug_submit_cumu : Bool
  compactions : CompactionVariant → Compaction
  wait_ready : Bool

/-- The fan-out loop of `_handle_run_compaction`:
`for tablet in tablet_vec: RETURN_IF_ERROR(submit(tablet))`.
Returns the final `Status` and the ids of the tablets for which a
submission was attempted, in order. -/
def fan_out_submit (submit : Nat → CStatus) : List Tablet → CStatus × List Nat
  | [] => (CStatus.OK, [])
  | t :: rest =>
    let s := submit t.tablet_id
    if s.isOk then
      let r := fan_out_submit submit rest
      (r.1, t.tablet_id :: r.2)
    else
      (s, [t.tablet_id])

/-- The JSON success body of `_handle_run_compaction`. -/
def success_json (table_id tablet_id : Nat) : String :=
  "\x7b\"status\": \"Success\", \"msg\": \"compaction task is successfully triggered. Table id: "
    ++ toString table_id ++ ". Tablet id: " ++ toString tablet_id ++ "\"\x7d"

/-- The JSON success body of the debug-injection branch. -/
def debug_success_json (table_id tablet_id : Nat) : String :=
  "\x7b\"status\": \"Success\", \"msg\": \"debug compaction task is successfully triggered. Table id: "
    ++ toString table_id ++ ". Tablet id: " ++ toString tablet_id ++ "\"\x7d"

/-- Result of `_handle_run_compaction`: the returned `Status` as an error, or
success with the JSON body written to `json_result`. -/
inductive RunOutcome where
  | err (s : CStatus)
  | success (json : String)
  deriving DecidableEq, Repr

/-- Embedding of `CompactionAction::_handle_run_compaction`, together with
its observable side effects. -/
def handle_run_compaction (env : RunEnv) (req : HttpRequest) :
    RunOutcome × RunEffects :=
  let c := check_param_ids req
  if ¬ c.1.isOk then (RunOutcome.err c.1, RunEffects.noEffects)
  else
  let tablet_id := c.2.1
  let table_id := c.2.2
  let compaction_type := req.compaction_type_param
  if compaction_type ≠ PARAM_COMPACTION_BASE ∧
      compaction_type ≠ PARAM_COMPACTION_CUMULATIVE ∧
      compaction_type ≠ PARAM_COMPACTION_FULL then
    (RunOutcome.err ⟨ErrCode.notSupported, "The compaction type is not supported"⟩,
     RunEffects.noEffects)
  else
  let param_remote := req.remote_param
  if param_remote ≠ "true" ∧ ¬ param_remote.isEmpty ∧ param_remote ≠ "false" then
    (RunOutcome.err ⟨ErrCode.notSupported, "The remote value is not supported"⟩,
     RunEffects.noEffects)
  else
  let fetch_from_remote := param_remote == "true"
  if tablet_id = 0 ∧ table_id ≠ 0 then
    let tablet_vec := get_all_tablet_of_table env.engine table_id
    let r := fan_out_submit
      (fun id => env.submit_result id CompactionType.FULL_COMPACTION) tablet_vec
    let eff : RunEffects :=
      ⟨true, r.2.map (fun id => (id, CompactionType.FULL_COMPACTION)), false⟩
    if ¬ r.1.isOk then (RunOutcome.err r.1, eff)
    else (RunOutcome.success (success_json table_id tablet_id), eff)
  else
    match get_tablet env.engine tablet_id with
    | none =>
      (RunOutcome.err ⟨ErrCode.notFound, "Tablet not found"⟩, ⟨true, [], false⟩)
    | some tablet =>
      if fetch_from_remote ∧ ¬ tablet.should_fetch_from_peer then
        (RunOutcome.err ⟨ErrCode.notSupported, "tablet should do compaction locally"⟩,
         ⟨true, [], false⟩)
      else if env.debug_submit_cumu then
        let s := env.submit_result tablet.tablet_id CompactionType.CUMULATIVE_COMPACTION
        let eff : RunEffects :=
          ⟨true, [(tablet.tablet_id, CompactionType.CUMULATIVE_COMPACTION)], false⟩
        if ¬ s.isOk then (RunOutcome.err s, eff)
        else (RunOutcome.success (debug_success_json table_id tablet_id), eff)
      else
        let res := (execute_compaction_callback env.compactions tablet
          compaction_type fetch_from_remote ⟨0, 0⟩).1
        let eff : RunEffects := ⟨true, [], true⟩
        if env.wait_ready then
          if ¬ res.isOk then (RunOutcome.err res, eff)
          else (RunOutcome.success (success_json table_id tablet_id), eff)
        else
          (RunOutcome.success (success_json table_id tablet_id), eff)

/-- The per-tablet decision of `_handle_run_status_compaction`: the
full-compaction flag first, then a try-lock probe of the cumulative lock,
then of the base lock (a try-lock fails exactly when the lock is held). -/
structure RunStatusReport where
  run_status : Bool
  compact_type : String
  deriving DecidableEq, Repr

/-- The probe sequence of `_handle_run_status_compaction` for one tablet. -/
def run_status_report (t : Tablet) : RunStatusReport :=
  if t.is_full_compaction_running then ⟨true, "full"⟩
  else if t.cumulative_lock_held then ⟨true, "cumulative"⟩
  else if t.base_lock_held then ⟨true, "base"⟩
  else ⟨false, ""⟩

/-- The JSON body `_handle_run_status_compaction` substitutes into its
template for a tablet-level report. -/
def run_status_json (tablet_id : Nat) (r : RunStatusReport) : String :=
  let msg := if r.run_status then "compaction task for this tablet is running"
             else "compaction task for this tablet is not running"
  "\x7b \"status\" : \"Success\", \"run_status\" : " ++ toString r.run_status
    ++ ", \"msg\" : \"" ++ msg ++ "\", \"tablet_id\" : " ++ toString tablet_id
    ++ ", \"compact_type\" : \"" ++ r.compact_type ++ "\" \x7d"

/-- Result of `_handle_run_status_compaction`: an error `Status`, the
engine-wide JSON (tablet id 0), or a tablet-level report. -/
inductive RunStatusOutcome where
  | err (s : CStatus)
  | overall (json : String)
  | tabletReport (tablet_id : Nat) (r : RunStatusReport)
  deriving DecidableEq, Repr

/-- Embedding of `CompactionAction::_handle_run_status_compaction`. -/
def handle_run_status_compaction (e : StorageEngine) (req : HttpRequest) :
    RunStatusOutcome :=
  let c := check_param_single req.tablet_id_param 0
  if ¬ c.1.isOk then RunStatusOutcome.err c.1
  else if c.2 = 0 then RunStatusOutcome.overall e.overall_status_json
  else
    match get_tablet e c.2 with
    | none => RunStatusOutcome.err ⟨ErrCode.internalError, "fail to get tablet"⟩
    | some t => RunStatusOutcome.tabletReport c.2 (run_status_report t)

/-- Result of `_handle_show_compaction`. -/
inductive ShowOutcome where
  | err (s : CStatus)
  | statusJson (json : String)
  deriving DecidableEq, Repr

/-- Embedding of `CompactionAction::_handle_show_compaction`. -/
def handle_show_compaction (e : StorageEngine) (req : HttpRequest) :
    ShowOutcome :=
  let c := check_param_single req.tablet_id_param 0
  if ¬ c.1.isOk then ShowOutcome.err c.1
  else if c.2 = 0 then
    ShowOutcome.err ⟨ErrCode.internalError, "check param failed: missing tablet_id"⟩
  else
    match get_tablet e c.2 with
    | none => ShowOutcome.err ⟨ErrCode.notFound, "Tablet not found"⟩
    | some t => ShowOutcome.statusJson t.compaction_status_json

/-- `CompactionActionType`: which of the three endpoints this action serves. -/
inductive CompactionActionType where
  | SHOW_INFO
  | RUN_COMPACTION
  | RUN_STATUS
  deriving DecidableEq, Repr

/-- The HTTP status codes `HttpChannel::send_reply` could be handed.  Only a
representative subset is listed; the action under verification only ever
chooses `OK`. -/
inductive HttpStatus where
  | OK
  | NOT_FOUND
  | INTERNAL_SERVER_ERROR
  | SERVICE_UNAVAILABLE
  deriving DecidableEq, Repr

/-- A printable name per error code, used by `Status::to_json`. -/
def ErrCode.name : ErrCode → String
  | ErrCode.ok => "OK"
  | ErrCode.internalError => "INTERNAL_ERROR"
  | ErrCode.notFound => "NOT_FOUND"
  | ErrCode.notSupported => "NOT_SUPPORTED"
  | ErrCode.beNoSuitableVersion => "BE_NO_SUITABLE_VERSION"
  | ErrCode.cumulativeNoSuitableVersion => "CUMULATIVE_NO_SUITABLE_VERSION"
  | ErrCode.fullNoSuitableVersion => "FULL_NO_SUITABLE_VERSION"
  | ErrCode.otherError => "OTHER_ERROR"

/-- Embedding of `Status::to_json()`: the typed status rendered as a JSON
body. -/
def CStatus.to_json (s : CStatus) : String :=
  "\x7b\"status\": \"" ++ s.code.name ++ "\", \"msg\": \"" ++ s.msg ++ "\"\x7d"

/-- An HTTP reply as passed to `HttpChannel::send_reply`. -/
structure HttpReply where
  http_status : HttpStatus
  body : String
  deriving DecidableEq, Repr

/-- Embedding of `CompactionAction::handle`: dispatch on the action type,
then reply with status `OK` carrying either the handler's JSON result or the
failed `Status` rendered by `to_json`. -/
def handle (ctype : CompactionActionType) (env : RunEnv) (req : HttpRequest) :
    HttpReply :=
  match ctype with
  | CompactionActionType.SHOW_INFO =>
    match handle_show_compaction env.engine req with
    | ShowOutcome.err st => ⟨HttpStatus.OK, st.to_json⟩
    | ShowOutcome.statusJson j => ⟨HttpStatus.OK, j⟩
  | CompactionActionType.RUN_COMPACTION =>
    match (handle_run_compaction env req).1 with
    | RunOutcome.err st => ⟨HttpStatus.OK, st.to_json⟩
    | RunOutcome.success j => ⟨HttpStatus.OK, j⟩
  | CompactionActionType.RUN_STATUS =>
    match handle_run_status_compaction env.engine req with
    | RunStatusOutcome.err st => ⟨HttpStatus.OK, st.to_json⟩
    | RunStatusOutcome.overall j => ⟨HttpStatus.OK, j⟩
    | RunStatusOutcome.tabletReport id r => ⟨HttpStatus.OK, run_status_json id r⟩

/-! ## Fixtures used by witness theorems -/

/-- A tablet whose cumulative lock is held and whose policy is unbound. -/
def tabletCumuLocked : Tablet :=
  { tablet_id := 7, table_id := 42, should_fetch_from_peer := false,
    is_full_compaction_running := false, cumulative_lock_held := true,
    base_lock_held := false, compaction_policy_meta := "size_based",
    cumulative_compaction_policy := none, compaction_status_json := "stats" }

/-- An engine registering just `tabletCumuLocked`. -/
def engineOne : StorageEngine := ⟨[tabletCumuLocked], "overall"⟩

/-! ## Claims -/

/-- C1: for every run-status query on an existing tablet, the reported
compaction kind follows the fixed priority Full > Cumulative > Base: the
full-compaction flag first (running with kind "full"), else a failed
try-acquire of the cumulative lock (kind "cumulative"), else of the base
lock (kind "base"), else running = false with no kind (the code renders the
empty kind).  `run_status_report` is a function, so exactly one of the four
reports is produced. -/
theorem run_status_priority (e : StorageEngine) (req : HttpRequest)
    (id : Nat) (t : Tablet)
    (hne : req.tablet_id_param.isEmpty = false)
    (hp : stoullOpt req.tablet_id_param = some id)
    (hid : id ≠ 0)
    (hget : get_tablet e id = some t) :
    handle_run_status_compaction e req =
      RunStatusOutcome.tabletReport id (run_status_report t)
    ∧ (t.is_full_compaction_running = true →
        run_status_report t = ⟨true, "full"⟩)
    ∧ (t.is_full_compaction_running = false → t.cumulative_lock_held = true →
        run_status_report t = ⟨true, "cumulative"⟩)
    ∧ (t.is_full_compaction_running = false → t.cumulative_lock_held = false →
        t.base_lock_held = true → run_status_report t = ⟨true, "base"⟩)
    ∧ (t.is_full_compaction_running = false → t.cumulative_lock_held = false →
        t.base_lock_held = false → run_status_report t = ⟨false, ""⟩) := by
  refine ⟨?_, ?_, ?_, ?_, ?_⟩
  · unfold handle_run_status_compaction check_param_single
    simp [hne, hp, hid, hget, CStatus.isOk, CStatus.OK]
  · intro h1
    simp [run_status_report, h1]
  · intro h1 h2
    simp [run_status_report, h1, h2]
  · intro h1 h2 h3
    simp [run_status_report, h1, h2, h3]
  · intro h1 h2 h3
    simp [run_status_report, h1, h2, h3]

/-- Witness for C1 at a concrete engine and request: tablet 7 has its
cumulative lock held, so the query reports kind "cumulative". -/
theorem run_status_priority_witness :
    handle_run_status_compaction engineOne ⟨"7", "", "", ""⟩ =
      RunStatusOutcome.tabletReport 7 ⟨true, "cumulative"⟩ := by
  have h := run_status_priority engineOne ⟨"7", "", "", ""⟩ 7 tabletCumuLocked
    (by decide) (by decide) (by decide) (by decide)
  rw [h.1, h.2.2.1 (by decide) (by decide)]

/-- C6: `execute_compact` is invoked only after `prepare_compact` succeeded;
when `prepare_compact` fails, `execute_compact` is never invoked and the
prepare failure is the task's result (the `do_compact` lambda of the trigger
callback). -/
theorem prepare_before_execute (c : Compaction) :
    ((do_compact c).2 = true → c.prepare_compact.isOk = true)
    ∧ (c.prepare_compact.isOk = false →
        (do_compact c).1 = c.prepare_compact ∧ (do_compact c).2 = false) := by
  cases hp : c.prepare_compact.isOk <;> simp [do_compact, hp]

/-- Witness for C6 at a concrete task whose prepare fails: the result is the
prepare failure and execute is not invoked. -/
theorem prepare_before_execute_witness :
    (do_compact ⟨⟨ErrCode.otherError, "prep"⟩, ⟨ErrCode.ok, ""⟩⟩).1 =
        ⟨ErrCode.otherError, "prep"⟩
    ∧ (do_compact ⟨⟨ErrCode.otherError, "prep"⟩, ⟨ErrCode.ok, ""⟩⟩).2 = false :=
  (prepare_before_execute ⟨⟨ErrCode.otherError, "prep"⟩, ⟨ErrCode.ok, ""⟩⟩).2
    (by decide)

/-- C8: the trigger callback binds the cumulative compaction policy (created
from the tablet's persisted metadata) only when no policy is currently
bound; a tablet with a bound policy keeps that same policy instance. -/
theorem policy_bound_once (compactions : CompactionVariant → Compaction)
    (t : Tablet) (ct : String) (remote : Bool) (m : Metrics) :
    (t.cumulative_compaction_policy = none →
      (execute_compaction_callback compactions t ct remote m).2.2.cumulative_compaction_policy =
        some (create_cumulative_compaction_policy t.compaction_policy_meta))
    ∧ (∀ p, t.cumulative_compaction_policy = some p →
      (execute_compaction_callback compactions t ct remote m).2.2.cumulative_compaction_policy =
        some p) := by
  constructor
  · intro h
    unfold execute_compaction_callback
    simp only [h]
    split_ifs <;> simp_all
  · intro p h
    unfold execute_compaction_callback
    simp only [h]
    split_ifs <;> simp_all

/-- Witness for C8 at a concrete tablet: an unbound policy is bound from the
metadata, and a bound policy is kept unchanged. -/
theorem policy_bound_once_witness :
    (execute_compaction_callback (fun _ => ⟨CStatus.OK, CStatus.OK⟩)
        tabletCumuLocked "base" false ⟨0, 0⟩).2.2.cumulative_compaction_policy =
      some (create_cumulative_compaction_policy "size_based")
    ∧ (execute_compaction_callback (fun _ => ⟨CStatus.OK, CStatus.OK⟩)
        { tabletCumuLocked with cumulative_compaction_policy := some ⟨"old"⟩ }
        "base" false ⟨0, 0⟩).2.2.cumulative_compaction_policy = some ⟨"old"⟩ :=
  ⟨(policy_bound_once (fun _ => ⟨CStatus.OK, CStatus.OK⟩) tabletCumuLocked
      "base" false ⟨0, 0⟩).1 (by decide),
   (policy_bound_once (fun _ => ⟨CStatus.OK, CStatus.OK⟩)
      { tabletCumuLocked with cumulative_compaction_policy := some ⟨"old"⟩ }
      "base" false ⟨0, 0⟩).2 ⟨"old"⟩ (by decide)⟩

/-- C10: every reply of `CompactionAction::handle` uses HTTP status `OK`,
whichever endpoint is served and whether the underlying handler succeeded;
a failed handler's typed `Status` is conveyed as the JSON body rendered by
`to_json`. -/
theorem http_reply_always_ok (ctype : CompactionActionType) (env : RunEnv)
    (req : HttpRequest) :
    (handle ctype env req).http_status = HttpStatus.OK
    ∧ (∀ st, ctype = CompactionActionType.SHOW_INFO →
        handle_show_compaction env.engine req = ShowOutcome.err st →
        (handle ctype env req).body = st.to_json)
    ∧ (∀ st, ctype = CompactionActionType.RUN_COMPACTION →
        (handle_run_compaction env req).1 = RunOutcome.err st →
        (handle ctype env req).body = st.to_json)
    ∧ (∀ st, ctype = CompactionActionType.RUN_STATUS →
        handle_run_status_compaction env.engine req = RunStatusOutcome.err st →
        (handle ctype env req).body = st.to_json) := by
  refine ⟨?_, ?_, ?_, ?_⟩
  · cases ctype <;>
      (simp only [handle]; split <;> rfl)
  · intro st hc h
    subst hc
    simp [handle, h]
  · intro st hc h
    subst hc
    simp [handle, h]
  · intro st hc h
    subst hc
    simp [handle, h]

/-- Witness for C10 at a concrete failing request (no parameters at all):
the reply status is `OK` and the body is the failed status rendered as
JSON. -/
theorem http_reply_always_ok_witness :
    (handle CompactionActionType.RUN_COMPACTION
        ⟨engineOne, fun _ _ => CStatus.OK, false,
         fun _ => ⟨CStatus.OK, CStatus.OK⟩, true⟩ ⟨"", "", "", ""⟩).http_status =
      HttpStatus.OK
    ∧ (handle CompactionActionType.RUN_COMPACTION
        ⟨engineOne, fun _ _ => CStatus.OK, false,
         fun _ => ⟨CStatus.OK, CStatus.OK⟩, true⟩ ⟨"", "", "", ""⟩).body =
      CStatus.to_json ⟨ErrCode.internalError,
        "tablet id and table id can not be empty at the same time!"⟩ :=
  ⟨(http_reply_always_ok CompactionActionType.RUN_COMPACTION
      ⟨engineOne, fun _ _ => CStatus.OK, false,
       fun _ => ⟨CStatus.OK, CStatus.OK⟩, true⟩ ⟨"", "", "", ""⟩).1,
   (http_reply_always_ok CompactionActionType.RUN_COMPACTION
      ⟨engineOne, fun _ _ => CStatus.OK, false,
       fun _ => ⟨CStatus.OK, CStatus.OK⟩, true⟩ ⟨"", "", "", ""⟩).2.2.1
      ⟨ErrCode.internalError,
        "tablet id and table id can not be empty at the same time!"⟩
      rfl (by decide)⟩

/-- C2 counterexample: a full compaction that fails with an error other than
NoSuitableVersion increments no failure counter — the callback only logs it —
so "any other execution failure does increment a failure counter" is false
for the full-compaction path (and likewise for the remote-fetch path). -/
theorem nsv_counter_counterexample :
    (execute_compaction_callback
        (fun _ => ⟨CStatus.OK, ⟨ErrCode.otherError, "merge failed"⟩⟩)
        tabletCumuLocked PARAM_COMPACTION_FULL false ⟨0, 0⟩).1 =
      ⟨ErrCode.otherError, "merge failed"⟩
    ∧ (execute_compaction_callback
        (fun _ => ⟨CStatus.OK, ⟨ErrCode.otherError, "merge failed"⟩⟩)
        tabletCumuLocked PARAM_COMPACTION_FULL false ⟨0, 0⟩).2.1 = ⟨0, 0⟩ := by
  decide

/-- C2 as amended: a NoSuitableVersion result never increments a failure
counter; any other execution failure increments the matching counter for
base compaction and for locally executed cumulative compaction, while
remote-fetch (single-replica) and full compaction never increment a counter
whatever their result. -/
theorem nsv_counter_discipline (compactions : CompactionVariant → Compaction)
    (t : Tablet) (remote : Bool) (m : Metrics) :
    ((execute_compaction_callback compactions t PARAM_COMPACTION_BASE remote m).1.code =
        ErrCode.beNoSuitableVersion →
      (execute_compaction_callback compactions t PARAM_COMPACTION_BASE remote m).2.1 = m)
    ∧ ((execute_compaction_callback compactions t PARAM_COMPACTION_BASE remote m).1.isOk = false →
      (execute_compaction_callback compactions t PARAM_COMPACTION_BASE remote m).1.code ≠
        ErrCode.beNoSuitableVersion →
      (execute_compaction_callback compactions t PARAM_COMPACTION_BASE remote m).2.1 =
        ⟨m.base_compaction_request_failed + 1, m.cumulative_compaction_request_failed⟩)
    ∧ ((execute_compaction_callback compactions t PARAM_COMPACTION_CUMULATIVE false m).1.code =
        ErrCode.cumulativeNoSuitableVersion →
      (execute_compaction_callback compactions t PARAM_COMPACTION_CUMULATIVE false m).2.1 = m)
    ∧ ((execute_compaction_callback compactions t PARAM_COMPACTION_CUMULATIVE false m).1.isOk =
        false →
      (execute_compaction_callback compactions t PARAM_COMPACTION_CUMULATIVE false m).1.code ≠
        ErrCode.cumulativeNoSuitableVersion →
      (execute_compaction_callback compactions t PARAM_COMPACTION_CUMULATIVE false m).2.1 =
        ⟨m.base_compaction_request_failed, m.cumulative_compaction_request_failed + 1⟩)
    ∧ (execute_compaction_callback compactions t PARAM_COMPACTION_CUMULATIVE true m).2.1 = m
    ∧ (execute_compaction_callback compactions t PARAM_COMPACTION_FULL remote m).2.1 = m := by
  have hcb : (PARAM_COMPACTION_CUMULATIVE == PARAM_COMPACTION_BASE) = false := by decide
  have hfb : (PARAM_COMPACTION_FULL == PARAM_COMPACTION_BASE) = false := by decide
  have hfc : (PARAM_COMPACTION_FULL == PARAM_COMPACTION_CUMULATIVE) = false := by decide
  refine ⟨?_, ?_, ?_, ?_, ?_, ?_⟩
  · intro h
    unfold execute_compaction_callback at *
    simp_all
  · intro h1 h2
    unfold execute_compaction_callback at *
    simp_all [CStatus.isOk]
  · intro h
    unfold execute_compaction_callback at *
    simp_all [hcb]
  · intro h1 h2
    unfold execute_compaction_callback at *
    simp_all [hcb, CStatus.isOk]
  · unfold execute_compaction_callback
    simp [hcb]
  · unfold execute_compaction_callback
    simp [hfb, hfc]

/-- Witness for the amended C2: with a base compaction failing with its
NoSuitableVersion code the counters stay at (3, 4); with a base compaction
failing with another error the base counter moves to 4. -/
theorem nsv_counter_discipline_witness :
    (execute_compaction_callback
        (fun _ => ⟨CStatus.OK, ⟨ErrCode.beNoSuitableVersion, "nsv"⟩⟩)
        tabletCumuLocked PARAM_COMPACTION_BASE false ⟨3, 4⟩).2.1 = ⟨3, 4⟩
    ∧ (execute_compaction_callback
        (fun _ => ⟨CStatus.OK, ⟨ErrCode.otherError, "x"⟩⟩)
        tabletCumuLocked PARAM_COMPACTION_BASE false ⟨3, 4⟩).2.1 = ⟨4, 4⟩ :=
  ⟨(nsv_counter_discipline
      (fun _ => ⟨CStatus.OK, ⟨ErrCode.beNoSuitableVersion, "nsv"⟩⟩)
      tabletCumuLocked false ⟨3, 4⟩).1 (by decide),
   (nsv_counter_discipline
      (fun _ => ⟨CStatus.OK, ⟨ErrCode.otherError, "x"⟩⟩)
      tabletCumuLocked false ⟨3, 4⟩).2.1 (by decide) (by decide)⟩

/-- C4: supplying both `tablet_id` and `table_id` is a validation error,
supplying neither is a validation error, and `remote=true` on a tablet whose
replication role does not permit peer-fetch is rejected before any task is
submitted or spawned (hence before any compaction lock is acquired). -/
theorem trigger_validation (env : RunEnv) (req : HttpRequest) :
    (req.tablet_id_param.isEmpty = false → req.table_id_param.isEmpty = false →
      handle_run_compaction env req =
        (RunOutcome.err ⟨ErrCode.internalError,
          "tablet id and table id can not be set at the same time!"⟩,
         RunEffects.noEffects))
    ∧ (req.tablet_id_param.isEmpty = true → req.table_id_param.isEmpty = true →
      handle_run_compaction env req =
        (RunOutcome.err ⟨ErrCode.internalError,
          "tablet id and table id can not be empty at the same time!"⟩,
         RunEffects.noEffects))
    ∧ (∀ id t,
      req.tablet_id_param.isEmpty = false →
      stoullOpt req.tablet_id_param = some id →
      req.table_id_param.isEmpty = true →
      (req.compaction_type_param = PARAM_COMPACTION_BASE ∨
        req.compaction_type_param = PARAM_COMPACTION_CUMULATIVE ∨
        req.compaction_type_param = PARAM_COMPACTION_FULL) →
      req.remote_param = "true" →
      get_tablet env.engine id = some t →
      t.should_fetch_from_peer = false →
      handle_run_compaction env req =
        (RunOutcome.err ⟨ErrCode.notSupported, "tablet should do compaction locally"⟩,
         ⟨true, [], false⟩)) := by
  refine ⟨?_, ?_, ?_⟩
  · intro h1 h2
    unfold handle_run_compaction check_param_ids
    simp [h1, h2, CStatus.isOk]
  · intro h1 h2
    unfold handle_run_compaction check_param_ids
    simp [h1, h2, CStatus.isOk]
  · intro id t h1 h2 h3 hct hr hget hpeer
    unfold handle_run_compaction check_param_ids
    rcases hct with hct | hct | hct <;>
      simp [h1, h2, h3, hct, hr, hget, hpeer, CStatus.isOk, CStatus.OK,
        PARAM_COMPACTION_BASE, PARAM_COMPACTION_CUMULATIVE, PARAM_COMPACTION_FULL]

/-- Witness for C4 at concrete requests: both ids given; neither id given;
`remote=true` on a tablet that must compact locally. -/
theorem trigger_validation_witness :
    (handle_run_compaction
        ⟨engineOne, fun _ _ => CStatus.OK, false,
         fun _ => ⟨CStatus.OK, CStatus.OK⟩, true⟩ ⟨"1", "2", "base", ""⟩).1 =
      RunOutcome.err ⟨ErrCode.internalError,
        "tablet id and table id can not be set at the same time!"⟩
    ∧ (handle_run_compaction
        ⟨engineOne, fun _ _ => CStatus.OK, false,
         fun _ => ⟨CStatus.OK, CStatus.OK⟩, true⟩ ⟨"", "", "base", ""⟩).1 =
      RunOutcome.err ⟨ErrCode.internalError,
        "tablet id and table id can not be empty at the same time!"⟩
    ∧ handle_run_compaction
        ⟨engineOne, fun _ _ => CStatus.OK, false,
         fun _ => ⟨CStatus.OK, CStatus.OK⟩, true⟩ ⟨"7", "", "base", "true"⟩ =
      (RunOutcome.err ⟨ErrCode.notSupported, "tablet should do compaction locally"⟩,
       ⟨true, [], false⟩) :=
  ⟨by rw [(trigger_validation
      ⟨engineOne, fun _ _ => CStatus.OK, false,
       fun _ => ⟨CStatus.OK, CStatus.OK⟩, true⟩ ⟨"1", "2", "base", ""⟩).1
      (by decide) (by decide)],
   by rw [(trigger_validation
      ⟨engineOne, fun _ _ => CStatus.OK, false,
       fun _ => ⟨CStatus.OK, CStatus.OK⟩, true⟩ ⟨"", "", "base", ""⟩).2.1
      (by decide) (by decide)],
   (trigger_validation
      ⟨engineOne, fun _ _ => CStatus.OK, false,
       fun _ => ⟨CStatus.OK, CStatus.OK⟩, true⟩ ⟨"7", "", "base", "true"⟩).2.2
      7 tabletCumuLocked (by decide) (by decide) (by decide) (Or.inl rfl) rfl
      (by decide) (by decide)⟩

/-- C7: a `compaction_type` outside base / cumulative / full, and a `remote`
value other than "true", "false" or empty, are each rejected with a
not-supported error with no tablet lookup, no submission and no spawned
task (hence before any lock is touched). -/
theorem unsupported_params_rejected (env : RunEnv) (req : HttpRequest) :
    ((check_param_ids req).1.isOk = true →
      req.compaction_type_param ≠ PARAM_COMPACTION_BASE →
      req.compaction_type_param ≠ PARAM_COMPACTION_CUMULATIVE →
      req.compaction_type_param ≠ PARAM_COMPACTION_FULL →
      handle_run_compaction env req =
        (RunOutcome.err ⟨ErrCode.notSupported, "The compaction type is not supported"⟩,
         RunEffects.noEffects))
    ∧ ((check_param_ids req).1.isOk = true →
      (req.compaction_type_param = PARAM_COMPACTION_BASE ∨
        req.compaction_type_param = PARAM_COMPACTION_CUMULATIVE ∨
        req.compaction_type_param = PARAM_COMPACTION_FULL) →
      req.remote_param ≠ "true" → req.remote_param.isEmpty = false →
      req.remote_param ≠ "false" →
      handle_run_compaction env req =
        (RunOutcome.err ⟨ErrCode.notSupported, "The remote value is not supported"⟩,
         RunEffects.noEffects)) := by
  constructor
  · intro hok h1 h2 h3
    unfold handle_run_compaction
    simp [hok, h1, h2, h3]
  · intro hok hct hr1 hr2 hr3
    unfold handle_run_compaction
    rcases hct with hct | hct | hct <;>
      simp [hok, hct, hr1, hr2, hr3, PARAM_COMPACTION_BASE,
        PARAM_COMPACTION_CUMULATIVE, PARAM_COMPACTION_FULL]

/-- Witness for C7 at concrete requests: an unknown compaction type and an
unknown remote value are each rejected with no effects. -/
theorem unsupported_params_rejected_witness :
    handle_run_compaction
        ⟨engineOne, fun _ _ => CStatus.OK, false,
         fun _ => ⟨CStatus.OK, CStatus.OK⟩, true⟩ ⟨"7", "", "rubbish", ""⟩ =
      (RunOutcome.err ⟨ErrCode.notSupported, "The compaction type is not supported"⟩,
       RunEffects.noEffects)
    ∧ handle_run_compaction
        ⟨engineOne, fun _ _ => CStatus.OK, false,
         fun _ => ⟨CStatus.OK, CStatus.OK⟩, true⟩ ⟨"7", "", "base", "maybe"⟩ =
      (RunOutcome.err ⟨ErrCode.notSupported, "The remote value is not supported"⟩,
       RunEffects.noEffects) :=
  ⟨(unsupported_params_rejected
      ⟨engineOne, fun _ _ => CStatus.OK, false,
       fun _ => ⟨CStatus.OK, CStatus.OK⟩, true⟩ ⟨"7", "", "rubbish", ""⟩).1
      (by decide) (by decide) (by decide) (by decide),
   (unsupported_params_rejected
      ⟨engineOne, fun _ _ => CStatus.OK, false,
       fun _ => ⟨CStatus.OK, CStatus.OK⟩, true⟩ ⟨"7", "", "base", "maybe"⟩).2
      (by decide) (Or.inl rfl) (by decide) (by decide) (by decide)⟩

/-- C9: a non-empty `tablet_id` or `table_id` parameter on which
`std::stoull` throws makes parameter checking fail; the run, run-status and
show handlers all reject such a request with no tablet lookup, no
submission and no spawned task. -/
theorem unparseable_id_rejected (env : RunEnv) (e : StorageEngine)
    (req : HttpRequest) :
    (req.tablet_id_param.isEmpty = false →
      stoullOpt req.tablet_id_param = none →
      req.table_id_param.isEmpty = true →
      handle_run_compaction env req =
        (RunOutcome.err ⟨ErrCode.internalError, "convert tablet_id failed"⟩,
         RunEffects.noEffects))
    ∧ (req.tablet_id_param.isEmpty = true →
      req.table_id_param.isEmpty = false →
      stoullOpt req.table_id_param = none →
      handle_run_compaction env req =
        (RunOutcome.err ⟨ErrCode.internalError, "convert table_id failed"⟩,
         RunEffects.noEffects))
    ∧ (req.tablet_id_param.isEmpty = false →
      stoullOpt req.tablet_id_param = none →
      handle_run_status_compaction e req =
        RunStatusOutcome.err ⟨ErrCode.internalError, "convert param failed"⟩)
    ∧ (req.tablet_id_param.isEmpty = false →
      stoullOpt req.tablet_id_param = none →
      handle_show_compaction e req =
        ShowOutcome.err ⟨ErrCode.internalError, "convert param failed"⟩) := by
  refine ⟨?_, ?_, ?_, ?_⟩
  · intro h1 h2 h3
    unfold handle_run_compaction check_param_ids
    simp [h1, h2, h3, CStatus.isOk]
  · intro h1 h2 h3
    unfold handle_run_compaction check_param_ids
    simp [h1, h2, h3, CStatus.isOk]
  · intro h1 h2
    unfold handle_run_status_compaction check_param_single
    simp [h1, h2, CStatus.isOk]
  · intro h1 h2
    unfold handle_show_compaction check_param_single
    simp [h1, h2, CStatus.isOk]

/-- Witness for C9 at a request whose tablet id is not a number. -/
theorem unparseable_id_rejected_witness :
    handle_run_compaction
        ⟨engineOne, fun _ _ => CStatus.OK, false,
         fun _ => ⟨CStatus.OK, CStatus.OK⟩, true⟩ ⟨"abc", "", "base", ""⟩ =
      (RunOutcome.err ⟨ErrCode.internalError, "convert tablet_id failed"⟩,
       RunEffects.noEffects)
    ∧ handle_run_status_compaction engineOne ⟨"abc", "", "", ""⟩ =
      RunStatusOutcome.err ⟨ErrCode.internalError, "convert param failed"⟩ :=
  ⟨(unparseable_id_rejected
      ⟨engineOne, fun _ _ => CStatus.OK, false,
       fun _ => ⟨CStatus.OK, CStatus.OK⟩, true⟩ engineOne
      ⟨"abc", "", "base", ""⟩).1 (by decide) (by decide) (by decide),
   (unparseable_id_rejected
      ⟨engineOne, fun _ _ => CStatus.OK, false,
       fun _ => ⟨CStatus.OK, CStatus.OK⟩, true⟩ engineOne
      ⟨"abc", "", "", ""⟩).2.2.1 (by decide) (by decide)⟩

/-- The fan-out loop submits every tablet when all submissions succeed. -/
lemma fan_out_submit_all_ok (submit : Nat → CStatus) (l : List Tablet)
    (h : ∀ t ∈ l, (submit t.tablet_id).isOk = true) :
    fan_out_submit submit l = (CStatus.OK, l.map (fun t => t.tablet_id)) := by
  induction l with
  | nil => rfl
  | cons a l ih =>
    have ha := h a (List.mem_cons_self a l)
    simp [fan_out_submit, ha, ih (fun t ht => h t (List.mem_cons_of_mem a ht))]

/-- The fan-out loop stops at the first failed submission: later tablets are
not submitted and the failure becomes the loop's status. -/
lemma fan_out_submit_first_fail (submit : Nat → CStatus) (l1 : List Tablet)
    (b : Tablet) (l2 : List Tablet)
    (h1 : ∀ t ∈ l1, (submit t.tablet_id).isOk = true)
    (hb : (submit b.tablet_id).isOk = false) :
    fan_out_submit submit (l1 ++ b :: l2) =
      (submit b.tablet_id, (l1 ++ [b]).map (fun t => t.tablet_id)) := by
  induction l1 with
  | nil => simp [fan_out_submit, hb]
  | cons a l ih =>
    have ha := h1 a (List.mem_cons_self a l)
    simp [fan_out_submit, ha, ih (fun t ht => h1 t (List.mem_cons_of_mem a ht))]

/-- Two tablets of table 42 used by the fan-out claims. -/
def tabletA : Tablet :=
  { tablet_id := 1, table_id := 42, should_fetch_from_peer := false,
    is_full_compaction_running := false, cumulative_lock_held := false,
    base_lock_held := false, compaction_policy_meta := "size_based",
    cumulative_compaction_policy := none, compaction_status_json := "" }

/-- Second tablet of table 42. -/
def tabletB : Tablet :=
  { tabletA with tablet_id := 2 }

/-- An engine registering `tabletA` and `tabletB`. -/
def engineTwo : StorageEngine := ⟨[tabletA, tabletB], "overall"⟩

/-- An environment over `engineTwo` whose submission for tablet 1 fails. -/
def envFanFail : RunEnv :=
  ⟨engineTwo,
   fun id _ => if id = 1 then ⟨ErrCode.otherError, "submit failed"⟩ else CStatus.OK,
   false, fun _ => ⟨CStatus.OK, CStatus.OK⟩, true⟩

/-- C3 counterexample: with two tablets of table 42 and the submission for
the first failing, the handler submits only to tablet 1 — tablet 2 also
matches but is never submitted — and returns the submission failure instead
of treating it as non-fatal.  This refutes "continues submitting to the
remaining tablets even when the submission for one tablet fails". -/
theorem fanout_continues_counterexample :
    (handle_run_compaction envFanFail ⟨"", "42", "base", ""⟩).2.submissions =
      [(1, CompactionType.FULL_COMPACTION)]
    ∧ (handle_run_compaction envFanFail ⟨"", "42", "base", ""⟩).1 =
      RunOutcome.err ⟨ErrCode.otherError, "submit failed"⟩
    ∧ get_all_tablet_of_table envFanFail.engine 42 = [tabletA, tabletB] := by
  decide

/-- C3 as amended: the table-level fan-out submits one full-compaction task
per matching tablet in registry order only until a submission fails; if all
submissions succeed every matching tablet receives one task and the caller
is told success, while the first failed submission ends the batch — the
remaining tablets are not submitted and the failure is returned to the
caller. -/
theorem fanout_submission (env : RunEnv) (req : HttpRequest) (tid : Nat)
    (h1 : req.tablet_id_param.isEmpty = true)
    (h2 : req.table_id_param.isEmpty = false)
    (h3 : stoullOpt req.table_id_param = some tid)
    (h4 : tid ≠ 0)
    (hct : req.compaction_type_param = PARAM_COMPACTION_BASE ∨
      req.compaction_type_param = PARAM_COMPACTION_CUMULATIVE ∨
      req.compaction_type_param = PARAM_COMPACTION_FULL)
    (hrm : req.remote_param = "" ∨ req.remote_param = "true" ∨
      req.remote_param = "false") :
    ((∀ t ∈ get_all_tablet_of_table env.engine tid,
        (env.submit_result t.tablet_id CompactionType.FULL_COMPACTION).isOk = true) →
      handle_run_compaction env req =
        (RunOutcome.success (success_json tid 0),
         ⟨true, (get_all_tablet_of_table env.engine tid).map
            (fun t => (t.tablet_id, CompactionType.FULL_COMPACTION)), false⟩))
    ∧ (∀ l1 b l2, get_all_tablet_of_table env.engine tid = l1 ++ b :: l2 →
        (∀ t ∈ l1,
          (env.submit_result t.tablet_id CompactionType.FULL_COMPACTION).isOk = true) →
        (env.submit_result b.tablet_id CompactionType.FULL_COMPACTION).isOk = false →
        handle_run_compaction env req =
          (RunOutcome.err (env.submit_result b.tablet_id CompactionType.FULL_COMPACTION),
           ⟨true, (l1 ++ [b]).map
              (fun t => (t.tablet_id, CompactionType.FULL_COMPACTION)), false⟩)) := by
  have he : ("" : String).isEmpty = true := rfl
  constructor
  · intro hok
    have hfan := fan_out_submit_all_ok
      (fun id => env.submit_result id CompactionType.FULL_COMPACTION)
      (get_all_tablet_of_table env.engine tid) hok
    unfold handle_run_compaction check_param_ids
    rcases hct with hct | hct | hct <;> rcases hrm with hrm | hrm | hrm <;>
      simp [h1, h2, h3, h4, hct, hrm, hfan, CStatus.isOk, CStatus.OK,
        PARAM_COMPACTION_BASE, PARAM_COMPACTION_CUMULATIVE, PARAM_COMPACTION_FULL,
        List.map_map, Function.comp_def, he]
  · intro l1 b l2 hsplit hok hb
    have hfan := fan_out_submit_first_fail
      (fun id => env.submit_result id CompactionType.FULL_COMPACTION) l1 b l2 hok hb
    have hb' := hb
    simp only [CStatus.isOk, beq_eq_false_iff_ne, ne_eq] at hb'
    unfold handle_run_compaction check_param_ids
    rcases hct with hct | hct | hct <;> rcases hrm with hrm | hrm | hrm <;>
      simp [h1, h2, h3, h4, hct, hrm, hsplit, hfan, hb, hb', CStatus.isOk, CStatus.OK,
        PARAM_COMPACTION_BASE, PARAM_COMPACTION_CUMULATIVE, PARAM_COMPACTION_FULL,
        List.map_map, Function.comp_def, he]

/-- Witness for the amended C3: with both submissions succeeding both
tablets of table 42 are submitted; with the submission for tablet 1 failing
the batch stops there. -/
theorem fanout_submission_witness :
    handle_run_compaction
        ⟨engineTwo, fun _ _ => CStatus.OK, false,
         fun _ => ⟨CStatus.OK, CStatus.OK⟩, true⟩ ⟨"", "42", "base", ""⟩ =
      (RunOutcome.success (success_json 42 0),
       ⟨true, [(1, CompactionType.FULL_COMPACTION),
               (2, CompactionType.FULL_COMPACTION)], false⟩)
    ∧ handle_run_compaction envFanFail ⟨"", "42", "base", ""⟩ =
      (RunOutcome.err ⟨ErrCode.otherError, "submit failed"⟩,
       ⟨true, [(1, CompactionType.FULL_COMPACTION)], false⟩) := by
  constructor
  · have h := (fanout_submission
      ⟨engineTwo, fun _ _ => CStatus.OK, false,
       fun _ => ⟨CStatus.OK, CStatus.OK⟩, true⟩ ⟨"", "42", "base", ""⟩ 42
      (by decide) (by decide) (by decide) (by decide) (Or.inl rfl)
      (Or.inl rfl)).1 (by decide)
    rw [h]
    decide
  · have h := (fanout_submission envFanFail ⟨"", "42", "base", ""⟩ 42
      (by decide) (by decide) (by decide) (by decide) (Or.inl rfl)
      (Or.inl rfl)).2 [] tabletA [tabletB] (by decide) (by decide) (by decide)
    rw [h]
    decide

/-- C5: the single-tablet trigger waits a bounded time (2 seconds) for the
spawned background task: if the task completes in time its terminal result
is returned (a failure propagates as the handler's failure); on timeout the
handler reports success without cancelling the task.  The task's result is
the same term whether or not the wait succeeds — the detached thread runs to
completion regardless — and on timeout it is not returned to this caller. -/
theorem bounded_wait_for_task (env : RunEnv) (req : HttpRequest) (id : Nat)
    (t : Tablet)
    (hdbg : env.debug_submit_cumu = false)
    (h1 : req.tablet_id_param.isEmpty = false)
    (h2 : stoullOpt req.tablet_id_param = some id)
    (h3 : req.table_id_param.isEmpty = true)
    (hct : req.compaction_type_param = PARAM_COMPACTION_BASE ∨
      req.compaction_type_param = PARAM_COMPACTION_CUMULATIVE ∨
      req.compaction_type_param = PARAM_COMPACTION_FULL)
    (hrm : req.remote_param = "" ∨ req.remote_param = "true" ∨
      req.remote_param = "false")
    (hget : get_tablet env.engine id = some t)
    (hpeer : req.remote_param = "true" → t.should_fetch_from_peer = true) :
    (env.wait_ready = true →
      (execute_compaction_callback env.compactions t req.compaction_type_param
          (req.remote_param == "true") ⟨0, 0⟩).1.isOk = false →
      handle_run_compaction env req =
        (RunOutcome.err (execute_compaction_callback env.compactions t
            req.compaction_type_param (req.remote_param == "true") ⟨0, 0⟩).1,
         ⟨true, [], true⟩))
    ∧ (env.wait_ready = true →
      (execute_compaction_callback env.compactions t req.compaction_type_param
          (req.remote_param == "true") ⟨0, 0⟩).1.isOk = true →
      handle_run_compaction env req =
        (RunOutcome.success (success_json 0 id), ⟨true, [], true⟩))
    ∧ (env.wait_ready = false →
      handle_run_compaction env req =
        (RunOutcome.success (success_json 0 id), ⟨true, [], true⟩)) := by
  have he : ("" : String).isEmpty = true := rfl
  refine ⟨?_, ?_, ?_⟩
  · intro hw hres
    rcases hct with hct | hct | hct <;> rcases hrm with hrm | hrm | hrm <;>
      (simp only [hct, hrm] at hres ⊢;
       simp [CStatus.isOk, beq_eq_false_iff_ne, PARAM_COMPACTION_BASE,
         PARAM_COMPACTION_CUMULATIVE, PARAM_COMPACTION_FULL] at hres;
       unfold handle_run_compaction check_param_ids;
       simp [hdbg, h1, h2, h3, hct, hrm, hget, hpeer, hw, hres,
         CStatus.isOk, CStatus.OK, he, PARAM_COMPACTION_BASE,
         PARAM_COMPACTION_CUMULATIVE, PARAM_COMPACTION_FULL])
  · intro hw hres
    rcases hct with hct | hct | hct <;> rcases hrm with hrm | hrm | hrm <;>
      (simp only [hct, hrm] at hres ⊢;
       simp [CStatus.isOk, PARAM_COMPACTION_BASE,
         PARAM_COMPACTION_CUMULATIVE, PARAM_COMPACTION_FULL] at hres;
       unfold handle_run_compaction check_param_ids;
       simp [hdbg, h1, h2, h3, hct, hrm, hget, hpeer, hw, hres,
         CStatus.isOk, CStatus.OK, he, PARAM_COMPACTION_BASE,
         PARAM_COMPACTION_CUMULATIVE, PARAM_COMPACTION_FULL])
  · intro hw
    unfold handle_run_compaction check_param_ids
    rcases hct with hct | hct | hct <;> rcases hrm with hrm | hrm | hrm <;>
      simp [hdbg, h1, h2, h3, hct, hrm, hget, hpeer, hw,
        CStatus.isOk, CStatus.OK, he, PARAM_COMPACTION_BASE,
        PARAM_COMPACTION_CUMULATIVE, PARAM_COMPACTION_FULL]

/-- Witness for C5 at a concrete environment over tablet 7: a cumulative
compaction failing during execute propagates its failure when the wait
completes, while the same task under a timed-out wait yields a reported
success. -/
theorem bounded_wait_for_task_witness :
    handle_run_compaction
        ⟨engineOne, fun _ _ => CStatus.OK, false,
         fun _ => ⟨CStatus.OK, ⟨ErrCode.otherError, "exec failed"⟩⟩, true⟩
        ⟨"7", "", "cumulative", ""⟩ =
      (RunOutcome.err ⟨ErrCode.otherError, "exec failed"⟩, ⟨true, [], true⟩)
    ∧ handle_run_compaction
        ⟨engineOne, fun _ _ => CStatus.OK, false,
         fun _ => ⟨CStatus.OK, ⟨ErrCode.otherError, "exec failed"⟩⟩, false⟩
        ⟨"7", "", "cumulative", ""⟩ =
      (RunOutcome.success (success_json 0 7), ⟨true, [], true⟩) := by
  constructor
  · have h := (bounded_wait_for_task
      ⟨engineOne, fun _ _ => CStatus.OK, false,
       fun _ => ⟨CStatus.OK, ⟨ErrCode.otherError, "exec failed"⟩⟩, true⟩
      ⟨"7", "", "cumulative", ""⟩ 7 tabletCumuLocked rfl (by decide) (by decide)
      (by decide) (Or.inr (Or.inl rfl)) (Or.inl rfl) (by decide)
      (fun hc => by simp at hc)).1 rfl (by decide)
    rw [h]
    decide
  · have h := (bounded_wait_for_task
      ⟨engineOne, fun _ _ => CStatus.OK, false,
       fun _ => ⟨CStatus.OK, ⟨ErrCode.otherError, "exec failed"⟩⟩, false⟩
      ⟨"7", "", "cumulative", ""⟩ 7 tabletCumuLocked rfl (by decide) (by decide)
      (by decide) (Or.inr (Or.inl rfl)) (Or.inl rfl) (by decide)
      (fun hc => by simp at hc)).2.2 rfl
    rw [h]

end DorisCompaction
